import Mathlib

/-!
Verification development for the kba Game Boy Advance emulator.

All machine integers are modelled as `Nat` bit patterns (u8/u16/u32), with
explicit `% 2^w` or masks where Rust wrapping matters.  Fallible Rust code
(array-index / slice panics, `unreachable!`) is modelled with `Option`.
-/

/-! ## Bit-field helpers

Model of the `proc_bitfield::BitRange` operations used by the `bits!` and
`set_bits!` macros in `src/mmu/mod.rs` and by the generated bitfield
accessors: `bit_range::<LO, HI>` extracts bits `lo..hi` (exclusive end),
`set_bit_range::<LO, HI>` replaces them. -/

def bitRange (x lo hi : Nat) : Nat := (x >>> lo) &&& (2 ^ (hi - lo) - 1)

def setBitRange (x lo hi v : Nat) : Nat :=
  ((x >>> hi) <<< hi) ||| (x &&& (2 ^ lo - 1)) ||| ((v &&& (2 ^ (hi - lo) - 1)) <<< lo)

/-- Sign-extension of a 16-bit pattern to a 32-bit pattern (`as i16 as i32`). -/
def sext16 (v : Nat) : Nat := if v < 0x8000 then v else v + 0xFFFF0000

/-! ## Timers (`src/mmu/timer.rs`) -/

/-- Prescaler selector for a timer (`enum Freq`, `timer.rs`). -/
inductive Freq
  | f1
  | f64
  | f256
  | f1024
deriving DecidableEq

/-- Prescaler value chosen in `Timers::tick` from `self[id].freq`. -/
def Freq.val : Freq → Nat
  | .f1 => 1
  | .f64 => 64
  | .f256 => 256
  | .f1024 => 1024

/-- The 16-bit timer with all its attributes (`struct Timer`, `timer.rs`). -/
structure Timer where
  counter : Nat
  reload : Nat
  freq : Freq
  count_up : Bool
  irq : Bool
  start : Bool
deriving DecidableEq

/-- Rust `Timer::default()`: zero counter and reload, `Freq::F1`, all flags off. -/
instance : Inhabited Timer := ⟨⟨0, 0, .f1, false, false, false⟩⟩

/-- Model of `Timer::tick` (timer.rs:132-141): increment the 16-bit counter;
on `overflowing_add` overflow load `reload`; return whether it overflowed. -/
def Timer.tick (t : Timer) : Timer × Bool :=
  let c := t.counter + 1
  let ov := decide (0x10000 ≤ c)
  ({ t with counter := if ov then t.reload else c }, ov)

/-- Model of `Timer::apply_tmr_cnt` (timer.rs:123-128): update attributes from
the TMxCNT_H register value. -/
def Timer.apply_tmr_cnt (t : Timer) (value : Nat) : Timer :=
  { t with
    start := value &&& (1 <<< 7) ≠ 0
    irq := value &&& (1 <<< 6) ≠ 0
    count_up := value &&& (1 <<< 2) ≠ 0
    freq :=
      match value &&& 0x3 with
      | 0 => .f1
      | 1 => .f64
      | 2 => .f256
      | _ => .f1024 }

/-- Model of `impl From<Timer> for u16` (timer.rs:144-152): the TMxCNT_H
read-back value. -/
def Timer.toU16 (t : Timer) : Nat :=
  0xFF00 |||
    (cond t.start 1 0) <<< 7 |||
    (cond t.irq 1 0) <<< 6 |||
    (cond t.count_up 1 0) <<< 2 |||
    (match t.freq with | .f1 => 0 | .f64 => 1 | .f256 => 2 | .f1024 => 3)

/-- Modelled from the spec: the `IF::set_timer(id)` helper called from
`Timers::tick` is not present under `src/`; per the `IF` bitfield layout in
`src/mmu/irq.rs` (timer0 @ bit 3 .. timer3 @ bit 6) and §4.8 "raise the
timer's IF bit", it sets bit `3 + id` of IF. -/
def IFsetTimer (iff id : Nat) : Nat := iff ||| (1 <<< (3 + id))

/-- Model of `Timers::tick` (timer.rs:14-41): for each started timer, tick it
when its prescale condition `cycles % freq == 0` holds, or on count-up when
the previous timer overflowed this call; whenever `tm_overflow[id]` is set,
`iff.set_timer(id)` is called (the `irq` attribute is not consulted).
State is `(timers, tm_overflow, iff)` threaded over ids 0..3. -/
def Timers.tick (ts : List Timer) (iff cycles : Nat) : List Timer × Nat :=
  let step := fun (acc : List Timer × List Bool × Nat) (id : Nat) =>
    let (ts, ov, f) := acc
    let t := ts.getD id default
    if !t.start then acc
    else
      let freq := t.freq.val
      let fire := (!t.count_up && decide (cycles % freq = 0)) ||
        (t.count_up && decide (0 < id) && ov.getD (id - 1) false)
      let (t', o) := if fire then t.tick else (t, false)
      let ov' := ov.set id o
      let f' := if ov'.getD id false then IFsetTimer f id else f
      (ts.set id t', ov', f')
  let r := (List.range 4).foldl step (ts, [false, false, false, false], iff)
  (r.1, r.2.2)

/-! ## PPU color special effects (`src/ppu/mod.rs`) -/

/-- Model of `modify_brightness::<MODE>` (ppu/mod.rs:29-42).  `mode = true`
is brightness increase.  Each 5-bit channel is transformed and the channels
are recombined with u16-wrapping shifts; note the Rust code applies no
division by 16 to the `evy` term.  (The `mode = false` branch uses truncated
subtraction here; only `mode = true` is at issue in the claims.) -/
def modify_brightness (mode : Bool) (target_px_a evy : Nat) : Nat :=
  let evy_coeff := min evy 16
  let r_a := target_px_a &&& 0x1F
  let g_a := (target_px_a >>> 5) &&& 0x1F
  let b_a := (target_px_a >>> 10) &&& 0x1F
  let f := fun c => if mode then c + (31 - c) * evy_coeff else c - c * evy_coeff
  (((f b_a) <<< 10) % 0x10000) ||| (((f g_a) <<< 5) % 0x10000) ||| ((f r_a) % 0x10000)

/-- Brightness increase as the spec states it (§4.7): each 5-bit R/G/B
channel becomes `top + (31 − top)·evy/16`, recombined as `b<<10 | g<<5 | r`. -/
def brightnessIncSpec (top evy : Nat) : Nat :=
  let f := fun c => c + (31 - c) * evy / 16
  ((f ((top >>> 10) &&& 0x1F)) <<< 10) ||| ((f ((top >>> 5) &&& 0x1F)) <<< 5) |||
    (f (top &&& 0x1F))

/-! ### Claim C4 and C8 evaluation states -/

/-- Timer 0 for the C4 failing input: started, about to overflow, prescaler
÷1, IRQ-enable clear. -/
def c4Timer0 : Timer :=
  { counter := 0xFFFF, reload := 0x1234, freq := .f1, count_up := false,
    irq := false, start := true }

/-- A stopped timer (Rust `Timer::default()`). -/
def timerOff : Timer := default

/-- Claim C4 (code_bug evaluation): ticking a started timer with IRQ-enable
clear at its overflow point reloads the counter from `reload` but ALSO sets
the timer's IF bit (bit 3), because `Timers::tick` calls `iff.set_timer(id)`
unconditionally on overflow; the claim (and §4.8) require the IF bit to be
raised only when the IRQ-enable flag is set. -/
theorem c4_timer_overflow_sets_if_despite_irq_disabled :
    c4Timer0.irq = false ∧
    Timers.tick [c4Timer0, timerOff, timerOff, timerOff] 0 0 =
      ([{ c4Timer0 with counter := 0x1234 }, timerOff, timerOff, timerOff], 8) := by
  exact ⟨rfl, rfl⟩

/-- Claim C8 (code_bug evaluation): brightness increase on a black pixel with
`evy = 16` yields `0xFFF0` in the code (each channel becomes `0 + 31·16 = 496`
with no `/16`, overflowing into the neighbouring channels), while the spec
formula `top + (31 − top)·evy/16` yields `0x7FFF` (each channel 31). -/
theorem c8_brightness_increase_missing_div16 :
    modify_brightness true 0x0000 16 = 0xFFF0 ∧ brightnessIncSpec 0x0000 16 = 0x7FFF := by
  exact ⟨rfl, rfl⟩

/-! ## CPU register banking (`src/arm/interpreter/arm7tdmi.rs`) -/

/-- Processor modes (`enum Mode`, arm7tdmi.rs:53-61). -/
inductive Mode
  | user
  | fiq
  | irq
  | supervisor
  | abort
  | undefined
  | system
deriving DecidableEq

/-- SPSR plus the bank of shadowed registers (`struct BankedRegisters`,
arm7tdmi.rs:12): `bank` is a `[u32; 7]`, so the list always has length 7 in
well-formed states. -/
structure BankedRegisters where
  spsr : Nat
  bank : List Nat
deriving DecidableEq

/-- The per-mode banks (`struct Registers`, arm7tdmi.rs:63-71). -/
structure Registers where
  sys_regs : BankedRegisters
  und_regs : BankedRegisters
  abt_regs : BankedRegisters
  svc_regs : BankedRegisters
  irq_regs : BankedRegisters
  fiq_regs : BankedRegisters
deriving DecidableEq

/-- `impl Index<Mode> for Registers` (arm7tdmi.rs:73-86): User and System
share `sys_regs`. -/
def Registers.get (r : Registers) : Mode → BankedRegisters
  | .user | .system => r.sys_regs
  | .irq => r.irq_regs
  | .supervisor => r.svc_regs
  | .abort => r.abt_regs
  | .undefined => r.und_regs
  | .fiq => r.fiq_regs

/-- `impl IndexMut<Mode> for Registers` (arm7tdmi.rs:88-99). -/
def Registers.put (r : Registers) (m : Mode) (b : BankedRegisters) : Registers :=
  match m with
  | .user | .system => { r with sys_regs := b }
  | .irq => { r with irq_regs := b }
  | .supervisor => { r with svc_regs := b }
  | .abort => { r with abt_regs := b }
  | .undefined => { r with und_regs := b }
  | .fiq => { r with fiq_regs := b }

/-- CPU state touched by `swap_regs` (`struct Arm7TDMI`, arm7tdmi.rs:26-42):
`regs` is a `[u32; 16]` (length-16 list in well-formed states).  The `bus`
and `branch` fields are untouched by `swap_regs` and omitted here. -/
structure Arm7TDMI where
  regs : List Nat
  cpsr : Nat
  spsr : Nat
  banked_regs : Registers
deriving DecidableEq

/-- Rust slice `&xs[lo..=hi]`: panics (`none`) unless
`lo ≤ hi + 1 ∧ hi + 1 ≤ xs.length`. -/
def sliceInc (xs : List Nat) (lo hi : Nat) : Option (List Nat) :=
  if lo ≤ hi + 1 ∧ hi + 1 ≤ xs.length then some ((xs.drop lo).take (hi + 1 - lo))
  else none

/-- Rust `xs[lo..=hi].copy_from_slice(src)`: panics (`none`) if the slice is
out of bounds or the lengths differ. -/
def copyIntoRange (xs : List Nat) (lo hi : Nat) (src : List Nat) : Option (List Nat) :=
  if lo ≤ hi + 1 ∧ hi + 1 ≤ xs.length ∧ src.length = hi + 1 - lo then
    some (xs.take lo ++ src ++ xs.drop (hi + 1))
  else none

/-- Rust `xs.copy_from_slice(src)` over a whole array: panics (`none`) on a
length mismatch. -/
def copyAll (xs src : List Nat) : Option (List Nat) :=
  if src.length = xs.length then some src else none

/-- Rust indexed store `xs[i] = v` (panics when out of bounds). -/
def listPut (xs : List Nat) (i v : Nat) : Option (List Nat) :=
  if i < xs.length then some (xs.set i v) else none

/-- Rust indexed read `xs[i]` (panics when out of bounds). -/
def listIdx (xs : List Nat) (i : Nat) : Option Nat := xs.get? i

/-- Model of `Arm7TDMI::swap_regs` (arm7tdmi.rs:893-929), statement by
statement.  Note the source slices `self.banked_regs.sys_regs.bank[8..=14]`
(lines 913 and 919) although `bank` is a `[u32; 7]`; those slices are out of
bounds, modelled by `sliceInc`/`copyIntoRange` returning `none`. -/
def Arm7TDMI.swap_regs (cpu : Arm7TDMI) (current_mode new_mode : Mode) :
    Option Arm7TDMI :=
  if current_mode = new_mode then some cpu
  else
    let spsr := cpu.spsr
    let br := cpu.banked_regs.put current_mode
      { cpu.banked_regs.get current_mode with spsr := spsr }
    let spsr1 :=
      match new_mode with
      | .system | .user => cpu.cpsr
      | _ => (br.get new_mode).spsr
    do
      let (regs1, br1) ←
        if current_mode = Mode.fiq then do
          let s ← sliceInc cpu.regs 8 14
          let fb ← copyAll (br.get current_mode).bank s
          let br' := br.put current_mode { br.get current_mode with bank := fb }
          let s2 ← sliceInc br'.sys_regs.bank 8 14
          let r' ← copyIntoRange cpu.regs 8 14 s2
          pure (r', br')
        else pure (cpu.regs, br)
      let (regs2, br2) ←
        if new_mode = Mode.fiq then do
          let s ← sliceInc regs1 8 14
          let sb ← copyIntoRange br1.sys_regs.bank 8 14 s
          let br' := { br1 with sys_regs := { br1.sys_regs with bank := sb } }
          let r' ← copyIntoRange regs1 8 14 (br'.get new_mode).bank
          pure (r', br')
        else pure (regs1, br1)
      let v13 ← listIdx regs2 13
      let v14 ← listIdx regs2 14
      let cb := br2.get current_mode
      let cb5 ← listPut cb.bank 5 v13
      let cb6 ← listPut cb5 6 v14
      let br3 := br2.put current_mode { cb with bank := cb6 }
      let n5 ← listIdx (br3.get new_mode).bank 5
      let n6 ← listIdx (br3.get new_mode).bank 6
      let r13 ← listPut regs2 13 n5
      let r14 ← listPut r13 14 n6
      pure { cpu with regs := r14, spsr := spsr1, banked_regs := br3 }

/-- An all-zero length-7 bank. -/
def bank0 : BankedRegisters := ⟨0, List.replicate 7 0⟩

/-- The CPU state produced by `Arm7TDMI::new` restricted to the register
fields: sixteen zero registers, CPSR `0x1F` (System), zero SPSR, zero banks. -/
def cpu0 : Arm7TDMI :=
  { regs := List.replicate 16 0, cpsr := 0x1F, spsr := 0,
    banked_regs := ⟨bank0, bank0, bank0, bank0, bank0, bank0⟩ }

/-- Claim C2 (code_bug evaluation): a mode switch into FIQ and a mode switch
out of FIQ both panic (return `none`), because `swap_regs` slices the
length-7 `sys_regs.bank` with the range `8..=14`; the claim requires every
mode switch to complete without failure. -/
theorem c2_swap_regs_fiq_switch_panics :
    Arm7TDMI.swap_regs cpu0 Mode.user Mode.fiq = none ∧
    Arm7TDMI.swap_regs cpu0 Mode.fiq Mode.user = none := by
  exact ⟨rfl, rfl⟩

/-! ## ARM instruction decoder (`src/build.rs`, `Arm7TDMI::cycle`) -/

/-- Handler selected by `decode_arm` in `build.rs`, with the specialization
bits each handler is instantiated with. -/
inductive ArmHandler
  | multiply (s : Bool)
  | multiply_long (s : Bool)
  | swap (b : Bool)
  | bx
  | bl
  | hw_signed_data_transfer (imm p u w l s h : Bool)
  | block_data_transfer (p u s w l : Bool)
  | psr_transfer (imm psr : Bool)
  | data_processing (imm s : Bool)
  | single_data_transfer (i p u b w l : Bool)
  | swi
  | undefined
deriving DecidableEq

/-- Model of `decode_arm` (build.rs:40-114): first-match-wins bitmask chain
over the 12-bit table index (opcode bits 27..20 and 7..4). -/
def decode_arm (index : Nat) : ArmHandler :=
  if index &&& 0xFCF = 0x009 then
    .multiply (index &&& (1 <<< 4) != 0)
  else if index &&& 0xF8F = 0x089 then
    .multiply_long (index &&& (1 <<< 4) != 0)
  else if index &&& 0xFBF = 0x109 then
    .swap (index &&& (1 <<< 6) != 0)
  else if index &&& 0xFFF = 0x121 then
    .bx
  else if index &&& 0xE00 = 0xA00 then
    .bl
  else if index &&& 0xE49 = 0x009 then
    .hw_signed_data_transfer false (index &&& (1 <<< 8) != 0) (index &&& (1 <<< 7) != 0)
      (index &&& (1 <<< 5) != 0) (index &&& (1 <<< 4) != 0) (index &&& (1 <<< 2) != 0)
      (index &&& (1 <<< 1) != 0)
  else if index &&& 0xE49 = 0x049 then
    .hw_signed_data_transfer true (index &&& (1 <<< 8) != 0) (index &&& (1 <<< 7) != 0)
      (index &&& (1 <<< 5) != 0) (index &&& (1 <<< 4) != 0) (index &&& (1 <<< 2) != 0)
      (index &&& (1 <<< 1) != 0)
  else if index &&& 0xE00 = 0x800 then
    .block_data_transfer (index &&& (1 <<< 8) != 0) (index &&& (1 <<< 7) != 0)
      (index &&& (1 <<< 6) != 0) (index &&& (1 <<< 5) != 0) (index &&& (1 <<< 4) != 0)
  else if index &&& 0xD90 = 0x100 then
    .psr_transfer (index &&& (1 <<< 9) != 0) (index &&& (1 <<< 6) != 0)
  else if index &&& 0xC00 = 0x000 then
    .data_processing (index &&& (1 <<< 9) != 0) (index &&& (1 <<< 4) != 0)
  else if index &&& 0xC00 = 0x400 then
    .single_data_transfer (index &&& (1 <<< 9) != 0) (index &&& (1 <<< 8) != 0)
      (index &&& (1 <<< 7) != 0) (index &&& (1 <<< 6) != 0) (index &&& (1 <<< 5) != 0)
      (index &&& (1 <<< 4) != 0)
  else if index &&& 0xF00 = 0xF00 then
    .swi
  else
    .undefined

/-- The generated 4096-entry ARM dispatch table (build.rs:23-25): entry `i`
holds `decode_arm i`. -/
def ARM_INSTRUCTIONS : List ArmHandler := (List.range 4096).map decode_arm

/-- Model of the table index computed in `Arm7TDMI::cycle` (arm7tdmi.rs:192):
`((opcode & 0x0FF0_0000) >> 16) | ((opcode & 0x00F0) >> 4)`. -/
def op_index (opcode : Nat) : Nat :=
  ((opcode &&& 0x0FF00000) >>> 16) ||| ((opcode &&& 0xF0) >>> 4)

/-- Instruction class of a handler, for comparison with the predicate list of
§4.1 (which names classes, not specialization bits). -/
inductive ArmClass
  | multiply
  | multiply_long
  | swap
  | bx
  | bl
  | hw_transfer
  | block_transfer
  | psr_transfer
  | data_processing
  | single_transfer
  | swi
  | undefined
deriving DecidableEq

/-- Class of each handler. -/
def classOf : ArmHandler → ArmClass
  | .multiply _ => .multiply
  | .multiply_long _ => .multiply_long
  | .swap _ => .swap
  | .bx => .bx
  | .bl => .bl
  | .hw_signed_data_transfer _ _ _ _ _ _ _ => .hw_transfer
  | .block_data_transfer _ _ _ _ _ => .block_transfer
  | .psr_transfer _ _ => .psr_transfer
  | .data_processing _ _ => .data_processing
  | .single_data_transfer _ _ _ _ _ _ => .single_transfer
  | .swi => .swi
  | .undefined => .undefined

/-- The decoding predicate list of §4.1, first match wins, written over
`hi = opcode[27:20]` and `lo = opcode[7:4]` (the only opcode bits any of the
twelve patterns constrains).  Bit `b` of the opcode is bit `b - 20` of `hi`
(for `20 ≤ b ≤ 27`) and bit `b - 4` of `lo` (for `4 ≤ b ≤ 7`). -/
def specDecodeArmHiLo (hi lo : Nat) : ArmClass :=
  -- 1. xxxx 0000 00xx xxxx xxxx xxxx 1001 xxxx  (opcode bits 27..22 = 000000)
  if hi >>> 2 = 0 ∧ lo = 0x9 then .multiply
  -- 2. xxxx 0000 1xxx xxxx xxxx xxxx 1001 xxxx  (opcode bits 27..23 = 00001)
  else if hi >>> 3 = 1 ∧ lo = 0x9 then .multiply_long
  -- 3. xxxx 0001 0x00 xxxx xxxx xxxx 1001 xxxx
  else if hi >>> 4 = 1 ∧ hi &&& 0x8 = 0 ∧ hi &&& 0x3 = 0 ∧ lo = 0x9 then .swap
  -- 4. xxxx 0001 0010 xxxx xxxx xxxx 0001 xxxx
  else if hi = 0x12 ∧ lo = 0x1 then .bx
  -- 5. xxxx 101x ...  (opcode bits 27..25 = 101)
  else if hi >>> 5 = 0x5 then .bl
  -- 6. xxxx 000x x0xx xxxx xxxx xxxx 1xx1 xxxx  (bits 27..25 = 000, bit 22 = 0)
  else if hi >>> 5 = 0 ∧ hi &&& 0x4 = 0 ∧ lo &&& 0x9 = 0x9 then .hw_transfer
  -- 7. xxxx 100x ...  (opcode bits 27..25 = 100)
  else if hi >>> 5 = 0x4 then .block_transfer
  -- 8. xxxx 00x1 0xx0 ...  (bits 27..26 = 00, bit 24 = 1, bit 23 = 0, bit 20 = 0)
  else if hi >>> 6 = 0 ∧ hi &&& 0x10 = 0x10 ∧ hi &&& 0x8 = 0 ∧ hi &&& 0x1 = 0 then .psr_transfer
  -- 9. xxxx 00xx ...
  else if hi >>> 6 = 0 then .data_processing
  -- 10. xxxx 01xx ...
  else if hi >>> 6 = 1 then .single_transfer
  -- 11. xxxx 1111 ...
  else if hi >>> 4 = 0xF then .swi
  -- 12. otherwise
  else .undefined

/-- The predicate list of §4.1 applied to a 32-bit opcode. -/
def specDecodeArm (opcode : Nat) : ArmClass :=
  specDecodeArmHiLo ((opcode >>> 20) &&& 0xFF) ((opcode >>> 4) &&& 0xF)

/-- Pattern list of §4.1 with pattern 6 amended to
`xxxx 000x xxxx xxxx xxxx xxxx 1xx1 xxxx`: the halfword/signed transfer
pattern no longer requires opcode bit 22 (the immediate-offset flag) to be 0. -/
def specDecodeArmAmendedHiLo (hi lo : Nat) : ArmClass :=
  if hi >>> 2 = 0 ∧ lo = 0x9 then .multiply
  else if hi >>> 3 = 1 ∧ lo = 0x9 then .multiply_long
  else if hi >>> 4 = 1 ∧ hi &&& 0x8 = 0 ∧ hi &&& 0x3 = 0 ∧ lo = 0x9 then .swap
  else if hi = 0x12 ∧ lo = 0x1 then .bx
  else if hi >>> 5 = 0x5 then .bl
  -- 6 (amended). xxxx 000x xxxx xxxx xxxx xxxx 1xx1 xxxx
  else if hi >>> 5 = 0 ∧ lo &&& 0x9 = 0x9 then .hw_transfer
  else if hi >>> 5 = 0x4 then .block_transfer
  else if hi >>> 6 = 0 ∧ hi &&& 0x10 = 0x10 ∧ hi &&& 0x8 = 0 ∧ hi &&& 0x1 = 0 then .psr_transfer
  else if hi >>> 6 = 0 then .data_processing
  else if hi >>> 6 = 1 then .single_transfer
  else if hi >>> 4 = 0xF then .swi
  else .undefined

/-- The amended predicate list applied to a 32-bit opcode. -/
def specDecodeArmAmended (opcode : Nat) : ArmClass :=
  specDecodeArmAmendedHiLo ((opcode >>> 20) &&& 0xFF) ((opcode >>> 4) &&& 0xF)

/-- Masking with a shifted mask commutes with shifting the value. -/
theorem and_shiftLeft_comm (x m k : Nat) : x &&& (m <<< k) = ((x >>> k) &&& m) <<< k := by
  apply Nat.eq_of_testBit_eq
  intro i
  simp only [Nat.testBit_and, Nat.testBit_shiftLeft, Nat.testBit_shiftRight]
  by_cases h : k ≤ i
  · simp [h, Nat.add_sub_cancel' h]
  · simp [h]

/-- Shifting left by `a` then right by `b ≤ a` shifts left by `a - b`. -/
theorem shiftLeft_shiftRight_sub (x a b : Nat) (h : b ≤ a) :
    (x <<< a) >>> b = x <<< (a - b) := by
  rw [Nat.shiftLeft_eq, Nat.shiftLeft_eq, Nat.shiftRight_eq_div_pow,
    show 2 ^ a = 2 ^ (a - b) * 2 ^ b by rw [← pow_add]; congr 1; omega,
    ← mul_assoc, Nat.mul_div_cancel _ (Nat.pos_pow_of_pos b (by omega))]

/-- The table index of `Arm7TDMI::cycle` equals the spec's key
`(opcode[27:20] << 4) | opcode[7:4]`. -/
theorem op_index_eq (opcode : Nat) :
    op_index opcode = (((opcode >>> 20) &&& 0xFF) <<< 4) ||| ((opcode >>> 4) &&& 0xF) := by
  show ((opcode &&& 0x0FF00000) >>> 16) ||| ((opcode &&& 0xF0) >>> 4) = _
  rw [show (0x0FF00000 : Nat) = 0xFF <<< 20 from rfl, show (0xF0 : Nat) = 0xF <<< 4 from rfl,
    and_shiftLeft_comm, and_shiftLeft_comm,
    shiftLeft_shiftRight_sub _ _ _ (by omega), shiftLeft_shiftRight_sub _ _ _ (by omega)]
  norm_num

/-- The table index is always within the 4096-entry table. -/
theorem op_index_lt (opcode : Nat) : op_index opcode < 4096 := by
  rw [op_index_eq]
  have h1 : ((opcode >>> 20) &&& 0xFF) ≤ 0xFF := Nat.and_le_right
  have h2 : ((opcode >>> 4) &&& 0xF) ≤ 0xF := Nat.and_le_right
  have : (((opcode >>> 20) &&& 0xFF) <<< 4) < 2 ^ 12 := by
    rw [Nat.shiftLeft_eq]; omega
  exact Nat.or_lt_two_pow this (by omega)

/-- Entry `i` of the generated table is `decode_arm i`. -/
theorem ARM_INSTRUCTIONS_getD (i : Nat) (h : i < 4096) (d : ArmHandler) :
    ARM_INSTRUCTIONS.getD i d = decode_arm i := by
  simp [ARM_INSTRUCTIONS, List.getD_eq_getElem?_getD, List.getElem?_map,
    List.getElem?_range, h]

set_option maxRecDepth 100000 in
/-- Exhaustive check over all 4096 table keys: the table handler's class is
the class selected by the amended §4.1 predicate list. -/
theorem decode_matches_amended_spec : ∀ hi < 256, ∀ lo < 16,
    classOf (decode_arm ((hi <<< 4) ||| lo)) = specDecodeArmAmendedHiLo hi lo := by
  decide

set_option maxRecDepth 100000 in
/-- Claim C1 counterexample: for opcode `0xE04000B0` (a halfword store with
post-indexed immediate offset: bits 27..25 = 000, bit 22 = 1, bits 7..4 =
1011) the dispatch table selects the halfword/signed transfer handler, but
the literal §4.1 predicate list — whose pattern 6 requires opcode bit 22 = 0
— falls through to pattern 9 and selects data processing. -/
theorem c1_counterexample_hw_immediate :
    classOf (ARM_INSTRUCTIONS.getD (op_index 0xE04000B0) ArmHandler.undefined) =
      ArmClass.hw_transfer ∧
    specDecodeArm 0xE04000B0 = ArmClass.data_processing ∧
    ArmClass.hw_transfer ≠ ArmClass.data_processing := by
  refine ⟨?_, by decide, by decide⟩
  decide

/-- Claim C1 (amended): for every 32-bit ARM opcode, indexing the 4096-entry
table with `(opcode[27:20) << 4) | opcode[7:4]` selects exactly the handler
chosen by the §4.1 predicate list with pattern 6 amended to leave opcode
bit 22 unconstrained. -/
theorem c1_table_matches_amended_spec (opcode : Nat) (h : opcode < 2 ^ 32) :
    classOf (ARM_INSTRUCTIONS.getD (op_index opcode) ArmHandler.undefined) =
      specDecodeArmAmended opcode := by
  rw [ARM_INSTRUCTIONS_getD _ (op_index_lt opcode), op_index_eq]
  have hh : (opcode >>> 20) &&& 0xFF < 256 := lt_of_le_of_lt Nat.and_le_right (by norm_num)
  have hl : (opcode >>> 4) &&& 0xF < 16 := lt_of_le_of_lt Nat.and_le_right (by norm_num)
  exact decode_matches_amended_spec _ hh _ hl

/-- Witness for C1 at the concrete opcode `0xE0000090` (MUL). -/
theorem c1_table_matches_amended_spec_witness :
    0xE0000090 < 2 ^ 32 ∧
    classOf (ARM_INSTRUCTIONS.getD (op_index 0xE0000090) ArmHandler.undefined) =
      specDecodeArmAmended 0xE0000090 :=
  ⟨by norm_num, c1_table_matches_amended_spec 0xE0000090 (by norm_num)⟩

/-! ## PPU scanline state machine (`src/ppu/lcd.rs`) -/

/-- PPU mode (`enum Mode`, lcd.rs:82-88; named `LcdMode` here because the CPU
`Mode` enum already uses the name). -/
inductive LcdMode
  | hdraw
  | hblank
  | vblank
deriving DecidableEq

/-- Update a single bit, as the generated bitfield boolean setters do. -/
def setBit (x i : Nat) (b : Bool) : Nat := setBitRange x i (i + 1) (cond b 1 0)

/-- The PPU state (`struct Ppu`, lcd.rs:23-80) restricted to its register and
timing fields.  The rendering scratch (`buffer`, `current_bg_line`,
`current_sprite_line`, `current_sprites`, `current_rot_scale`) is omitted:
it is only written by `scanline` and its helpers, which touch none of the
fields below.  `bgxx`/`bgxy` hold i32 bit patterns, `bgxpa..bgxpd` i16 bit
patterns.  `DISPSTAT` bits: vblank 0, hblank 1, v_counter 2, vblank_irq 3,
hblank_irq 4, v_counter_irq 5, lyc 8..15.  `VCOUNT`: ly at bits 0..7. -/
structure Ppu where
  dispcnt : Nat
  dispstat : Nat
  vcount : Nat
  bgxcnt : List Nat
  bgxhofs : List Nat
  bgxvofs : List Nat
  bgxx : List Nat
  bgxy : List Nat
  bgxpa : List Nat
  bgxpb : List Nat
  bgxpc : List Nat
  bgxpd : List Nat
  bldcnt : Nat
  bldalpha : Nat
  bldy : Nat
  winxh : List Nat
  winxv : List Nat
  winin : Nat
  winout : Nat
  internal_ref_xx : List Nat
  internal_ref_xy : List Nat
  prev_mode : LcdMode
  current_mode : LcdMode
  cycle : Nat

/-- Current scanline `self.vcount.ly()` (VCOUNT bits 0..7). -/
def Ppu.ly (p : Ppu) : Nat := bitRange p.vcount 0 8

/-- Model of `Ppu::cycle` (lcd.rs:115-207) acting on the state above plus the
IF register; `HDRAW_LEN = 1006`, `TOTAL_LEN = 1232`, `TOTAL_LINES = 227`
(lcd.rs:17-19).  The `scanline` call renders into the omitted scratch only.
The affine-reference updates are i32 wrapping adds of the sign-extended
BGxPB/BGxPD parameters. -/
def Ppu.cycleStep (p : Ppu) (iff : Nat) : Ppu × Nat :=
  let (p, iff) :=
    match p.current_mode with
    | .hdraw =>
      if 1006 < p.cycle then
        let p := { p with dispstat := setBit p.dispstat 1 true }
        let p := { p with prev_mode := p.current_mode, current_mode := .hblank }
        let iff := if p.dispstat.testBit 4 then setBit iff 1 true else iff
        (p, iff)
      else (p, iff)
    | .hblank =>
      if 1232 < p.cycle then
        let p := { p with
          internal_ref_xx :=
            (List.range 2).map fun bg =>
              (p.internal_ref_xx.getD bg 0 + sext16 (p.bgxpb.getD bg 0)) % 2 ^ 32,
          internal_ref_xy :=
            (List.range 2).map fun bg =>
              (p.internal_ref_xy.getD bg 0 + sext16 (p.bgxpd.getD bg 0)) % 2 ^ 32 }
        let p := { p with cycle := 0 }
        let p := { p with dispstat := setBit p.dispstat 1 false }
        let p := { p with vcount := setBitRange p.vcount 0 8 (p.ly + 1) }
        let p := { p with
          dispstat := setBit p.dispstat 2 (p.ly == bitRange p.dispstat 8 16) }
        let iff :=
          if p.dispstat.testBit 2 && p.dispstat.testBit 5 then setBit iff 2 true else iff
        if 160 ≤ p.ly then
          let iff := if p.dispstat.testBit 3 then setBit iff 0 true else iff
          let p := { p with dispstat := setBit p.dispstat 0 true }
          ({ p with prev_mode := p.current_mode, current_mode := .vblank }, iff)
        else
          ({ p with prev_mode := p.current_mode, current_mode := .hdraw }, iff)
      else (p, iff)
    | .vblank =>
      let p :=
        if 1006 < p.cycle then { p with dispstat := setBit p.dispstat 1 true } else p
      if 1232 < p.cycle then
        let p := { p with internal_ref_xx := p.bgxx, internal_ref_xy := p.bgxy }
        let p := { p with cycle := 0 }
        let p := { p with dispstat := setBit p.dispstat 1 false }
        let p := { p with vcount := setBitRange p.vcount 0 8 (p.ly + 1) }
        let p := { p with
          dispstat := setBit p.dispstat 2 (p.ly == bitRange p.dispstat 8 16) }
        let iff :=
          if p.dispstat.testBit 2 && p.dispstat.testBit 5 then setBit iff 2 true else iff
        if 227 ≤ p.ly then
          let p := { p with vcount := setBitRange p.vcount 0 8 0 }
          let p := { p with
            dispstat := setBit p.dispstat 2 (p.ly == bitRange p.dispstat 8 16) }
          let iff :=
            if p.dispstat.testBit 2 && p.dispstat.testBit 5 then setBit iff 2 true else iff
          let p := { p with dispstat := setBit p.dispstat 0 false }
          ({ p with prev_mode := p.current_mode, current_mode := .hdraw }, iff)
        else (p, iff)
      else (p, iff)
  ({ p with cycle := p.cycle + 1 }, iff)

/-- Iterate `Ppu::cycle` a given number of times. -/
def Ppu.run (p : Ppu) (iff : Nat) : Nat → Ppu × Nat
  | 0 => (p, iff)
  | n + 1 =>
    let s := p.cycleStep iff
    Ppu.run s.1 s.2 n

/-- The reset PPU state (`Ppu::default()`): all registers zero, both modes
`HDraw`, cycle 0. -/
def ppu0 : Ppu :=
  { dispcnt := 0, dispstat := 0, vcount := 0,
    bgxcnt := List.replicate 4 0, bgxhofs := List.replicate 4 0,
    bgxvofs := List.replicate 4 0,
    bgxx := List.replicate 2 0, bgxy := List.replicate 2 0,
    bgxpa := List.replicate 2 0, bgxpb := List.replicate 2 0,
    bgxpc := List.replicate 2 0, bgxpd := List.replicate 2 0,
    bldcnt := 0, bldalpha := 0, bldy := 0,
    winxh := List.replicate 2 0, winxv := List.replicate 2 0,
    winin := 0, winout := 0,
    internal_ref_xx := List.replicate 2 0, internal_ref_xy := List.replicate 2 0,
    prev_mode := .hdraw, current_mode := .hdraw, cycle := 0 }

/-- Splitting a PPU run. -/
theorem Ppu.run_add : ∀ (m : Nat) (p : Ppu) (f n : Nat),
    Ppu.run p f (m + n) = Ppu.run (Ppu.run p f m).1 (Ppu.run p f m).2 n
  | 0, p, f, n => by simp [Ppu.run]
  | m + 1, p, f, n => by
    rw [show m + 1 + n = (m + n) + 1 by omega]
    simp only [Ppu.run]
    exact Ppu.run_add m _ _ n

/-- Extracting the low bits of a value. -/
theorem bitRange_zero_lo (k n : Nat) : bitRange k 0 n = k % 2 ^ n := by
  simp [bitRange, Nat.and_pow_two_sub_one_eq_mod]

/-- Replacing all low bits of a small value. -/
theorem setBitRange_zero_lo (k v n : Nat) (hk : k < 2 ^ n) (hv : v < 2 ^ n) :
    setBitRange k 0 n v = v := by
  simp only [setBitRange, Nat.shiftRight_eq_div_pow, Nat.div_eq_of_lt hk,
    Nat.zero_shiftLeft, Nat.and_pow_two_sub_one_eq_mod, Nat.mod_eq_of_lt hv]
  simp [Nat.mod_one, Nat.mod_eq_of_lt hv]

/-- The HDraw-phase state of a scanline: line `k`, cycle counter `c`, all
display registers clear (LYC = 0, no IRQ enables). -/
def stA (k c : Nat) : Ppu :=
  { ppu0 with prev_mode := .hblank, current_mode := .hdraw, vcount := k, cycle := c }

/-- The HBlank-phase state of a scanline (HBlank flag set in DISPSTAT). -/
def stB (k c : Nat) : Ppu :=
  { ppu0 with
    dispstat := 2, prev_mode := .hdraw, current_mode := .hblank,
    vcount := k, cycle := c }

/-- The last tick of the last VBlank line the code produces: LY = 226, cycle
counter 1233, VBlank and HBlank flags set. -/
def stV226 : Ppu :=
  { ppu0 with
    dispstat := 3, prev_mode := .hblank, current_mode := .vblank,
    vcount := 226, cycle := 1233 }

/-- In HDraw, ticks up to the render tick only advance the cycle counter. -/
theorem cycleStep_stA_noop (k c f : Nat) (hc : c ≤ 1006) :
    Ppu.cycleStep (stA k c) f = (stA k (c + 1), f) := by
  simp [Ppu.cycleStep, stA, ppu0, Nat.not_lt.mpr hc]

/-- The render tick at cycle 1007: HBlank flag set, mode moves to HBlank. -/
theorem cycleStep_stA_render (k f : Nat) :
    Ppu.cycleStep (stA k 1007) f = (stB k 1008, f) := by
  simp [Ppu.cycleStep, stA, stB, ppu0, show setBit 0 1 true = 2 from rfl,
    show Nat.testBit 2 4 = false from rfl]

/-- In HBlank, ticks up to cycle 1232 only advance the cycle counter. -/
theorem cycleStep_stB_noop (k c f : Nat) (hc : c ≤ 1232) :
    Ppu.cycleStep (stB k c) f = (stB k (c + 1), f) := by
  simp [Ppu.cycleStep, stB, ppu0, Nat.not_lt.mpr hc]


/-- The line-advance tick at cycle 1233 for visible line 5: LY increments to
6 and a fresh HDraw phase starts with the cycle counter at 1. -/
theorem cycleStep_stB_wrap5 (f : Nat) :
    Ppu.cycleStep (stB 5 1233) f = (stA 6 1, f) := by
  rfl

/-- Running through the HDraw phase. -/
theorem run_stA (k : Nat) : ∀ (n c f : Nat), c + n ≤ 1007 →
    Ppu.run (stA k c) f n = (stA k (c + n), f)
  | 0, c, f, _ => by simp [Ppu.run]
  | n + 1, c, f, h => by
    simp only [Ppu.run, cycleStep_stA_noop k c f (by omega)]
    rw [run_stA k n (c + 1) f (by omega)]
    congr 2
    omega

/-- Running through the HBlank phase. -/
theorem run_stB (k : Nat) : ∀ (n c f : Nat), c + n ≤ 1233 →
    Ppu.run (stB k c) f n = (stB k (c + n), f)
  | 0, c, f, _ => by simp [Ppu.run]
  | n + 1, c, f, h => by
    simp only [Ppu.run, cycleStep_stB_noop k c f (by omega)]
    rw [run_stB k n (c + 1) f (by omega)]
    congr 2
    omega

/-- The state after the final tick of VBlank line 226: LY back to 0, VBlank
flag cleared, V-counter match flag set (LYC = 0), a fresh HDraw phase. -/
def stWrapped : Ppu := { stA 0 1 with prev_mode := .vblank, dispstat := 4 }

/-- Claim C5 (code_bug evaluation): starting visible scanline 5 at cycle
counter 1, after the 1232 ticks the claim allots to a scanline the PPU is
still on line 5 (in HBlank, cycle counter 1233); the line completes only
after 1233 ticks (`cycle > TOTAL_LEN` with `TOTAL_LEN = 1232`).  Moreover,
the final tick of VBlank line 226 wraps LY directly to 0
(`TOTAL_LINES = 227`), so LY never takes the value 227 and a frame has 227
lines: the claim's 1232-cycle lines, 228 lines per frame and LY wrap at 228
all fail on the code. -/
theorem c5_scanline_timing_off_by_one (f : Nat) :
    (Ppu.run (stA 5 1) f 1232 = (stB 5 1233, f) ∧ (stB 5 1233).ly = 5) ∧
    Ppu.run (stA 5 1) f 1233 = (stA 6 1, f) ∧
    stV226.ly = 226 ∧
    (Ppu.cycleStep stV226 f = (stWrapped, f) ∧ stWrapped.ly = 0) := by
  have hA : Ppu.run (stA 5 1) f 1006 = (stA 5 1007, f) := run_stA 5 1006 1 f (by omega)
  have hAB : Ppu.run (stA 5 1) f 1007 = (stB 5 1008, f) := by
    rw [show (1007 : Nat) = 1006 + 1 from rfl, Ppu.run_add, hA]
    simp [Ppu.run, cycleStep_stA_render]
  have hB : Ppu.run (stA 5 1) f 1232 = (stB 5 1233, f) := by
    rw [show (1232 : Nat) = 1007 + 225 from rfl, Ppu.run_add, hAB]
    exact run_stB 5 225 1008 f (by omega)
  refine ⟨⟨hB, by rfl⟩, ?_, by rfl, by rfl, by rfl⟩
  rw [show (1233 : Nat) = 1232 + 1 from rfl, Ppu.run_add, hB]
  simp [Ppu.run, cycleStep_stB_wrap5]

/-! ## DMA channels (`src/mmu/dma.rs`) -/

/-- Rust `address & !1` on a u32. -/
def align2 (a : Nat) : Nat := a &&& 0xFFFFFFFE

/-- Point update of a memory array modelled as a function. -/
def fupd (f : Nat → Nat) (i v : Nat) : Nat → Nat := fun j => if j = i then v else f j

/-- Address-control mode (`enum AddrControl`, dma.rs:162-169). -/
inductive AddrControl
  | increment
  | decrement
  | fixed
  | incReload
deriving DecidableEq

/-- `ConvRaw` decoding of an `AddrControl` (values 0..3). -/
def AddrControl.fromRaw : Nat → AddrControl
  | 0 => .increment
  | 1 => .decrement
  | 2 => .fixed
  | _ => .incReload

/-- `ConvRaw` encoding (`as u16`). -/
def AddrControl.toRaw : AddrControl → Nat
  | .increment => 0
  | .decrement => 1
  | .fixed => 2
  | .incReload => 3

/-- Start timing (`enum StartTiming`, dma.rs:171-178). -/
inductive StartTiming
  | immediate
  | vblank
  | hblank
  | special
deriving DecidableEq

/-- `ConvRaw` decoding of a `StartTiming` (values 0..3). -/
def StartTiming.fromRaw : Nat → StartTiming
  | 0 => .immediate
  | 1 => .vblank
  | 2 => .hblank
  | _ => .special

/-- `ConvRaw` encoding (`as u16`). -/
def StartTiming.toRaw : StartTiming → Nat
  | .immediate => 0
  | .vblank => 1
  | .hblank => 2
  | .special => 3

/-- One DMA channel (`struct DMA`, dma.rs:116-131).  The Rust field `repeat`
is called `repeats` here (`repeat` is a Lean keyword). -/
structure DMA where
  src : Nat
  dst : Nat
  word_count : Nat
  src_addr_ctrl : AddrControl
  dst_addr_ctrl : AddrControl
  start_timing : StartTiming
  repeats : Bool
  transfer_type : Bool
  pak_drq : Bool
  dma_irq : Bool
  enable : Bool
deriving DecidableEq

/-- Rust `DMA::default()`: zeros, `Increment`, `Immediate`, flags off. -/
instance : Inhabited DMA :=
  ⟨⟨0, 0, 0, .increment, .increment, .immediate, false, false, false, false, false⟩⟩

/-- Model of `DMA::apply_dma_cnt` (dma.rs:135-145).  Note the source mask for
the source address control is `0x110` (bits 4 and 8), not `0x180`
(bits 7-8): after `>> 7` only opcode bit 8 contributes, as bit 1. -/
def DMA.apply_dma_cnt (d : DMA) (value : Nat) : DMA :=
  { d with
    dst_addr_ctrl := AddrControl.fromRaw ((value &&& 0x60) >>> 5)
    src_addr_ctrl := AddrControl.fromRaw ((value &&& 0x110) >>> 7)
    start_timing := StartTiming.fromRaw ((value &&& 0x3000) >>> 12)
    repeats := value &&& (1 <<< 9) != 0
    transfer_type := value &&& (1 <<< 10) != 0
    pak_drq := value &&& (1 <<< 11) != 0
    dma_irq := value &&& (1 <<< 14) != 0
    enable := value &&& (1 <<< 15) != 0 }

/-- Model of `impl From<DMA> for u16` (dma.rs:148-160): DMAxCNT_H read-back. -/
def DMA.toU16 (d : DMA) : Nat :=
  (cond d.enable 1 0) <<< 15 |||
    (cond d.dma_irq 1 0) <<< 14 |||
    d.start_timing.toRaw <<< 12 |||
    (cond d.pak_drq 1 0) <<< 11 |||
    (cond d.transfer_type 1 0) <<< 10 |||
    (cond d.repeats 1 0) <<< 9 |||
    d.src_addr_ctrl.toRaw <<< 7 |||
    d.dst_addr_ctrl.toRaw <<< 5

/-- The four channels (`struct DMAChannels`, dma.rs:5-6). -/
structure DMAChannels where
  channels : List DMA
deriving DecidableEq

/-- Channel read (`DMAChannels::index`). -/
def DMAChannels.ch (c : DMAChannels) (i : Nat) : DMA := c.channels.getD i default

/-- Channel update (`DMAChannels::index_mut`). -/
def DMAChannels.setCh (c : DMAChannels) (i : Nat) (d : DMA) : DMAChannels :=
  ⟨c.channels.set i d⟩

/-- Model of `DMAChannels::read16` (dma.rs:9-17). -/
def DMAChannels.read16 (c : DMAChannels) (address : Nat) : Nat :=
  if address = 0xBA then (c.ch 0).toU16
  else if address = 0xC6 then (c.ch 1).toU16
  else if address = 0xD2 then (c.ch 2).toU16
  else if address = 0xDE then (c.ch 3).toU16
  else 0

/-- Model of `DMAChannels::read8` (dma.rs:19-24). -/
def DMAChannels.read8 (c : DMAChannels) (address : Nat) : Nat :=
  if address % 2 = 0 then c.read16 address &&& 0xFF
  else (c.read16 (align2 address) >>> 8) &&& 0xFF

/-- Model of `DMAChannels::write16` (dma.rs:26-61). -/
def DMAChannels.write16 (c : DMAChannels) (address value : Nat) : DMAChannels :=
  if address = 0xB0 then c.setCh 0 { c.ch 0 with src := value }
  else if address = 0xB2 then
    c.setCh 0 { c.ch 0 with src := (c.ch 0).src ||| ((value &&& 0x7FF) <<< 16) }
  else if address = 0xBC then c.setCh 1 { c.ch 1 with src := value }
  else if address = 0xBE then
    c.setCh 1 { c.ch 1 with src := (c.ch 1).src ||| ((value &&& 0x7FF) <<< 16) }
  else if address = 0xC8 then c.setCh 2 { c.ch 2 with src := value }
  else if address = 0xCA then
    c.setCh 2 { c.ch 2 with src := (c.ch 2).src ||| ((value &&& 0x7FF) <<< 16) }
  else if address = 0xD4 then c.setCh 3 { c.ch 3 with src := value }
  else if address = 0xD6 then
    c.setCh 3 { c.ch 3 with src := (c.ch 3).src ||| ((value &&& 0xFFF) <<< 16) }
  else if address = 0xB4 then c.setCh 0 { c.ch 0 with dst := value }
  else if address = 0xB6 then
    c.setCh 0 { c.ch 0 with dst := (c.ch 0).dst ||| ((value &&& 0x7FF) <<< 16) }
  else if address = 0xC0 then c.setCh 1 { c.ch 1 with dst := value }
  else if address = 0xC2 then
    c.setCh 1 { c.ch 1 with dst := (c.ch 1).dst ||| ((value &&& 0x7FF) <<< 16) }
  else if address = 0xCC then c.setCh 2 { c.ch 2 with dst := value }
  else if address = 0xCE then
    c.setCh 2 { c.ch 2 with dst := (c.ch 2).dst ||| ((value &&& 0x7FF) <<< 16) }
  else if address = 0xD8 then c.setCh 3 { c.ch 3 with dst := value }
  else if address = 0xDA then
    c.setCh 3 { c.ch 3 with dst := (c.ch 3).dst ||| ((value &&& 0xFFF) <<< 16) }
  else if address = 0xB8 then c.setCh 0 { c.ch 0 with word_count := value &&& 0x3FFF }
  else if address = 0xC4 then c.setCh 1 { c.ch 1 with word_count := value &&& 0x3FFF }
  else if address = 0xD0 then c.setCh 2 { c.ch 2 with word_count := value &&& 0x3FFF }
  else if address = 0xDC then c.setCh 3 { c.ch 3 with word_count := value }
  else if address = 0xBA then c.setCh 0 ((c.ch 0).apply_dma_cnt value)
  else if address = 0xC6 then c.setCh 1 ((c.ch 1).apply_dma_cnt value)
  else if address = 0xD2 then c.setCh 2 ((c.ch 2).apply_dma_cnt value)
  else if address = 0xDE then c.setCh 3 ((c.ch 3).apply_dma_cnt value)
  else c

/-- Model of `DMAChannels::raw_read16` (dma.rs:71-99). -/
def DMAChannels.raw_read16 (c : DMAChannels) (address : Nat) : Nat :=
  if address = 0xB0 then (c.ch 0).src &&& 0xFFFF
  else if address = 0xB2 then ((c.ch 0).src >>> 16) &&& 0xFFFF
  else if address = 0xBC then (c.ch 1).src &&& 0xFFFF
  else if address = 0xBE then ((c.ch 1).src >>> 16) &&& 0xFFFF
  else if address = 0xC8 then (c.ch 2).src &&& 0xFFFF
  else if address = 0xCA then ((c.ch 2).src >>> 16) &&& 0xFFFF
  else if address = 0xD4 then (c.ch 3).src &&& 0xFFFF
  else if address = 0xD6 then ((c.ch 3).src >>> 16) &&& 0xFFFF
  else if address = 0xB4 then (c.ch 0).dst &&& 0xFFFF
  else if address = 0xB6 then ((c.ch 0).dst >>> 16) &&& 0xFFFF
  else if address = 0xC0 then (c.ch 1).dst &&& 0xFFFF
  else if address = 0xC2 then ((c.ch 1).dst >>> 16) &&& 0xFFFF
  else if address = 0xCC then (c.ch 2).dst &&& 0xFFFF
  else if address = 0xCE then ((c.ch 2).dst >>> 16) &&& 0xFFFF
  else if address = 0xD8 then (c.ch 3).dst &&& 0xFFFF
  else if address = 0xDA then ((c.ch 3).dst >>> 16) &&& 0xFFFF
  else if address = 0xB8 then (c.ch 0).word_count
  else if address = 0xC4 then (c.ch 1).word_count
  else if address = 0xD0 then (c.ch 2).word_count
  else if address = 0xDC then (c.ch 3).word_count
  else if address = 0xBA ∨ address = 0xC6 ∨ address = 0xD2 ∨ address = 0xDE then
    c.read16 address
  else 0

/-- Model of `DMAChannels::write8` (dma.rs:63-69): read-modify-write through
`raw_read16` on the containing 16-bit register. -/
def DMAChannels.write8 (c : DMAChannels) (address value : Nat) : DMAChannels :=
  let t := c.raw_read16 (align2 address)
  let lo := t % 256
  let hi := t / 256 % 256
  if address % 2 = 0 then c.write16 address ((hi <<< 8) ||| value)
  else c.write16 (align2 address) ((value <<< 8) ||| lo)

/-! ## Timer MMIO (`src/mmu/timer.rs`, `impl Mcu for Timers`) -/

/-- Model of `Timers::read16` (timer.rs:45-57). -/
def Timers.read16 (ts : List Timer) (address : Nat) : Nat :=
  if address = 0x100 then (ts.getD 0 default).counter
  else if address = 0x102 then (ts.getD 0 default).toU16
  else if address = 0x104 then (ts.getD 1 default).counter
  else if address = 0x106 then (ts.getD 1 default).toU16
  else if address = 0x108 then (ts.getD 2 default).counter
  else if address = 0x10A then (ts.getD 2 default).toU16
  else if address = 0x10C then (ts.getD 3 default).counter
  else if address = 0x10E then (ts.getD 3 default).toU16
  else 0

/-- Model of `Timers::read8` (timer.rs:59-64).  Note the odd-address branch
reads `read16(address & 1)` as in the source (not `& !1`). -/
def Timers.read8 (ts : List Timer) (address : Nat) : Nat :=
  if address % 2 = 0 then Timers.read16 ts address &&& 0xFF
  else (Timers.read16 ts (address &&& 1) >>> 8) &&& 0xFF

/-- Model of `Timers::write16` (timer.rs:66-78); the default arm is
`unreachable!()`, modelled as `none`. -/
def Timers.write16 (ts : List Timer) (address value : Nat) : Option (List Timer) :=
  if address = 0x100 then some (ts.set 0 { ts.getD 0 default with reload := value })
  else if address = 0x102 then some (ts.set 0 ((ts.getD 0 default).apply_tmr_cnt value))
  else if address = 0x104 then some (ts.set 1 { ts.getD 1 default with reload := value })
  else if address = 0x106 then some (ts.set 1 ((ts.getD 1 default).apply_tmr_cnt value))
  else if address = 0x108 then some (ts.set 2 { ts.getD 2 default with reload := value })
  else if address = 0x10A then some (ts.set 2 ((ts.getD 2 default).apply_tmr_cnt value))
  else if address = 0x10C then some (ts.set 3 { ts.getD 3 default with reload := value })
  else if address = 0x10E then some (ts.set 3 ((ts.getD 3 default).apply_tmr_cnt value))
  else none

/-- Model of `Timers::write8` (timer.rs:80-92): the 16-bit value to modify is
the reload register for counter/reload addresses (`(address & !1) % 4 == 0`)
and the normal read-back otherwise. -/
def Timers.write8 (ts : List Timer) (address value : Nat) : Option (List Timer) :=
  let t :=
    if align2 address % 4 = 0 then (ts.getD ((align2 address - 0x100) / 4) default).reload
    else Timers.read16 ts (align2 address)
  let lo := t % 256
  let hi := t / 256 % 256
  if address % 2 = 0 then Timers.write16 ts address ((hi <<< 8) ||| value)
  else Timers.write16 ts (align2 address) ((value <<< 8) ||| lo)

/-! ## PPU MMIO (`src/ppu/lcd.rs`, `impl Mcu for Ppu`) -/

/-- Model of `Ppu::read16` (lcd.rs:718-732). -/
def Ppu.read16 (p : Ppu) (address : Nat) : Nat :=
  if address = 0x0000 then p.dispcnt
  else if address = 0x0004 then p.dispstat
  else if address = 0x0006 then p.vcount
  else if address = 0x0008 then p.bgxcnt.getD 0 0
  else if address = 0x000A then p.bgxcnt.getD 1 0
  else if address = 0x000C then p.bgxcnt.getD 2 0
  else if address = 0x000E then p.bgxcnt.getD 3 0
  else if address = 0x0048 then p.winin
  else if address = 0x004A then p.winout
  else if address = 0x0050 then p.bldcnt
  else 0

/-- Model of `Ppu::write16` (lcd.rs:741-808).  All stored values are 16-bit
bus values; `bgxx`/`bgxy` are 32-bit patterns updated through
`set_bits!` bit ranges, mirrored into the internal reference registers. -/
def Ppu.write16 (p : Ppu) (address value : Nat) : Ppu :=
  if address = 0x0000 then { p with dispcnt := value }
  else if address = 0x0004 then
    { p with dispstat := (value &&& 0xFFF8) ||| (p.dispstat &&& 0x7) }
  else if address = 0x0008 then { p with bgxcnt := p.bgxcnt.set 0 value }
  else if address = 0x000A then { p with bgxcnt := p.bgxcnt.set 1 value }
  else if address = 0x000C then { p with bgxcnt := p.bgxcnt.set 2 value }
  else if address = 0x000E then { p with bgxcnt := p.bgxcnt.set 3 value }
  else if address = 0x0010 then { p with bgxhofs := p.bgxhofs.set 0 value }
  else if address = 0x0012 then { p with bgxvofs := p.bgxvofs.set 0 value }
  else if address = 0x0014 then { p with bgxhofs := p.bgxhofs.set 1 value }
  else if address = 0x0016 then { p with bgxvofs := p.bgxvofs.set 1 value }
  else if address = 0x0018 then { p with bgxhofs := p.bgxhofs.set 2 value }
  else if address = 0x001A then { p with bgxvofs := p.bgxvofs.set 2 value }
  else if address = 0x001C then { p with bgxhofs := p.bgxhofs.set 3 value }
  else if address = 0x001E then { p with bgxvofs := p.bgxvofs.set 3 value }
  else if address = 0x0020 then { p with bgxpa := p.bgxpa.set 0 value }
  else if address = 0x0022 then { p with bgxpb := p.bgxpb.set 0 value }
  else if address = 0x0024 then { p with bgxpc := p.bgxpc.set 0 value }
  else if address = 0x0026 then { p with bgxpd := p.bgxpd.set 0 value }
  else if address = 0x0028 then
    let x := setBitRange (p.bgxx.getD 0 0) 0 16 value
    { p with bgxx := p.bgxx.set 0 x, internal_ref_xx := p.internal_ref_xx.set 0 x }
  else if address = 0x002A then
    let x := setBitRange (p.bgxx.getD 0 0) 16 28 (value &&& 0xFFF)
    { p with bgxx := p.bgxx.set 0 x, internal_ref_xx := p.internal_ref_xx.set 0 x }
  else if address = 0x002C then
    let x := setBitRange (p.bgxy.getD 0 0) 0 16 value
    { p with bgxy := p.bgxy.set 0 x, internal_ref_xy := p.internal_ref_xy.set 0 x }
  else if address = 0x002E then
    let x := setBitRange (p.bgxy.getD 0 0) 16 28 (value &&& 0xFFF)
    { p with bgxy := p.bgxy.set 0 x, internal_ref_xy := p.internal_ref_xy.set 0 x }
  else if address = 0x0030 then { p with bgxpa := p.bgxpa.set 1 value }
  else if address = 0x0032 then { p with bgxpb := p.bgxpb.set 1 value }
  else if address = 0x0034 then { p with bgxpc := p.bgxpc.set 1 value }
  else if address = 0x0036 then { p with bgxpd := p.bgxpd.set 1 value }
  else if address = 0x0038 then
    let x := setBitRange (p.bgxx.getD 1 0) 0 16 value
    { p with bgxx := p.bgxx.set 1 x, internal_ref_xx := p.internal_ref_xx.set 1 x }
  else if address = 0x003A then
    let x := setBitRange (p.bgxx.getD 1 0) 16 28 (value &&& 0xFFF)
    { p with bgxx := p.bgxx.set 1 x, internal_ref_xx := p.internal_ref_xx.set 1 x }
  else if address = 0x003C then
    let x := setBitRange (p.bgxy.getD 1 0) 0 16 value
    { p with bgxy := p.bgxy.set 1 x, internal_ref_xy := p.internal_ref_xy.set 1 x }
  else if address = 0x003E then
    let x := setBitRange (p.bgxy.getD 1 0) 16 28 (value &&& 0xFFF)
    { p with bgxy := p.bgxy.set 1 x, internal_ref_xy := p.internal_ref_xy.set 1 x }
  else if address = 0x0040 then { p with winxh := p.winxh.set 0 value }
  else if address = 0x0042 then { p with winxh := p.winxh.set 1 value }
  else if address = 0x0044 then { p with winxv := p.winxv.set 0 value }
  else if address = 0x0046 then { p with winxv := p.winxv.set 1 value }
  else if address = 0x0048 then { p with winin := value }
  else if address = 0x004A then { p with winout := value }
  else if address = 0x0050 then { p with bldcnt := value }
  else if address = 0x0052 then { p with bldalpha := value }
  else if address = 0x0054 then { p with bldy := value }
  else p

/-- Model of `Ppu::raw_read16` (lcd.rs:820-856). -/
def Ppu.raw_read16 (p : Ppu) (address : Nat) : Nat :=
  if address ≤ 0x000F then p.read16 address
  else if address = 0x0010 then p.bgxhofs.getD 0 0
  else if address = 0x0012 then p.bgxvofs.getD 0 0
  else if address = 0x0014 then p.bgxhofs.getD 1 0
  else if address = 0x0016 then p.bgxvofs.getD 1 0
  else if address = 0x0018 then p.bgxhofs.getD 2 0
  else if address = 0x001A then p.bgxvofs.getD 2 0
  else if address = 0x001C then p.bgxhofs.getD 3 0
  else if address = 0x001E then p.bgxvofs.getD 3 0
  else if address = 0x0020 then p.bgxpa.getD 0 0
  else if address = 0x0022 then p.bgxpb.getD 0 0
  else if address = 0x0024 then p.bgxpc.getD 0 0
  else if address = 0x0026 then p.bgxpd.getD 0 0
  else if address = 0x0028 then p.bgxx.getD 0 0 &&& 0xFFFF
  else if address = 0x002A then (p.bgxx.getD 0 0 >>> 16) &&& 0xFFFF
  else if address = 0x002C then p.bgxy.getD 0 0 &&& 0xFFFF
  else if address = 0x002E then (p.bgxy.getD 0 0 >>> 16) &&& 0xFFFF
  else if address = 0x0030 then p.bgxpa.getD 1 0
  else if address = 0x0032 then p.bgxpb.getD 1 0
  else if address = 0x0034 then p.bgxpc.getD 1 0
  else if address = 0x0036 then p.bgxpd.getD 1 0
  else if address = 0x0038 then p.bgxx.getD 1 0 &&& 0xFFFF
  else if address = 0x003A then (p.bgxx.getD 1 0 >>> 16) &&& 0xFFFF
  else if address = 0x003C then p.bgxy.getD 1 0 &&& 0xFFFF
  else if address = 0x003E then (p.bgxy.getD 1 0 >>> 16) &&& 0xFFFF
  else if address = 0x0040 then p.winxh.getD 0 0
  else if address = 0x0042 then p.winxh.getD 1 0
  else if address = 0x0044 then p.winxv.getD 0 0
  else if address = 0x0046 then p.winxv.getD 1 0
  else if 0x0048 ≤ address ∧ address ≤ 0x0050 then p.read16 address
  else if address = 0x0052 then p.bldalpha
  else if address = 0x0054 then p.bldy
  else 0

/-- Model of `Ppu::read8` (lcd.rs:734-739). -/
def Ppu.read8 (p : Ppu) (address : Nat) : Nat :=
  if address % 2 = 0 then p.read16 address &&& 0xFF
  else (p.read16 (align2 address) >>> 8) &&& 0xFF

/-- Model of `Ppu::write8` (lcd.rs:810-816): read-modify-write through
`raw_read16` on the containing 16-bit register. -/
def Ppu.write8 (p : Ppu) (address value : Nat) : Ppu :=
  let t := p.raw_read16 (align2 address)
  let lo := t % 256
  let hi := t / 256 % 256
  if address % 2 = 0 then p.write16 address ((hi <<< 8) ||| value)
  else p.write16 (align2 address) ((value <<< 8) ||| lo)

/-! ## The memory bus (`src/mmu/bus.rs`) -/

/-- Cartridge memory (`struct GamePak`, game_pak.rs:4-7), as constructed by
`Arm7TDMI::new`: a 32 MiB ROM buffer and a 64 KiB SRAM, modelled as total
byte functions. -/
structure GamePak where
  rom : Nat → Nat
  sram : Nat → Nat

/-- The bus (`struct Bus`, bus.rs:13-49).  Memory arrays are byte functions;
`wram` holds both EWRAM (offset 0) and IWRAM (offset 0x40000) as in the
source's single `[u8; 0x48000]`.  `ie`, `iff`, `key_input` are u16 values,
`ime` u32. -/
structure Bus where
  bios : Nat → Nat
  ppu : Ppu
  key_input : Nat
  ime : Nat
  ie : Nat
  iff : Nat
  timers : List Timer
  dma_channels : DMAChannels
  wram : Nat → Nat
  palette_ram : Nat → Nat
  vram : Nat → Nat
  oam : Nat → Nat
  game_pak : GamePak
  halt : Bool
  dma_in_progress : List Bool
  cpu_r : List Nat
  state : Bool

/-- Model of `Bus::read8` (bus.rs:218-262); the `0x6C` debug print has no
state effect and is dropped.  `value` results are bytes. -/
def Bus.read8 (b : Bus) (address : Nat) : Nat :=
  if address >>> 24 = 0x00 ∧ address < 0x4000 then b.bios address
  else if address >>> 24 = 0x02 then b.wram (address % 0x40000)
  else if address >>> 24 = 0x03 then b.wram (address % 0x8000 + 0x40000)
  else if address >>> 24 = 0x04 then
    let a := address - 0x04000000
    if a ≤ 0x51 then b.ppu.read8 a
    else if 0xB0 ≤ a ∧ a ≤ 0xDF then b.dma_channels.read8 a
    else if 0x100 ≤ a ∧ a ≤ 0x10F then Timers.read8 b.timers a
    else if a = 0x130 then b.key_input &&& 0xFF
    else if a = 0x131 then (b.key_input >>> 8) &&& 0xFF
    else if a = 0x200 then bitRange b.ie 0 8
    else if a = 0x201 then bitRange b.ie 8 16
    else if a = 0x202 then bitRange b.iff 0 8
    else if a = 0x203 then bitRange b.iff 8 16
    else if a = 0x208 then cond (b.ime.testBit 0) 1 0
    else if a = 0x209 then bitRange b.ime 8 16
    else if a = 0x20A then bitRange b.ime 16 24
    else if a = 0x20B then bitRange b.ime 24 32
    else 0
  else if address >>> 24 = 0x05 then b.palette_ram (address % 0x400)
  else if address >>> 24 = 0x06 then b.vram (address % 0x18000)
  else if address >>> 24 = 0x07 then b.oam (address % 0x400)
  else if 0x08 ≤ address >>> 24 ∧ address >>> 24 ≤ 0x0D then
    b.game_pak.rom (address &&& 0xFFFFFF)
  else if 0x0E ≤ address >>> 24 ∧ address >>> 24 ≤ 0x0F then
    if address = 0x0E000000 then 0x62
    else if address = 0x0E000001 then 0x13
    else b.game_pak.sram (address % 0x10000)
  else 0

/-- Model of `Bus::write8` (bus.rs:264-303); `value` is a byte.  The VRAM and
SRAM debug prints have no state effect.  Writes to the timer range go
through `Timers::write8`, whose `write16` has an `unreachable!()` default
arm, hence the `Option` result; every other arm always succeeds.  Addresses
outside the listed regions (BIOS, ROM, 0x01, ≥ 0x10) fall to the final
`_ => {}` arm and leave the bus unchanged. -/
def Bus.write8 (b : Bus) (address value : Nat) : Option Bus :=
  if address >>> 24 = 0x02 then
    some { b with wram := fupd b.wram (address % 0x40000) value }
  else if address >>> 24 = 0x03 then
    some { b with wram := fupd b.wram (address % 0x8000 + 0x40000) value }
  else if address >>> 24 = 0x04 then
    let a := address - 0x04000000
    if a ≤ 0x4B ∨ (0x50 ≤ a ∧ a ≤ 0x54) then
      some { b with ppu := b.ppu.write8 a value }
    else if 0xB0 ≤ a ∧ a ≤ 0xDF then
      some { b with dma_channels := b.dma_channels.write8 a value }
    else if 0x100 ≤ a ∧ a ≤ 0x10F then
      (Timers.write8 b.timers a value).map fun ts => { b with timers := ts }
    else if a = 0x200 then some { b with ie := setBitRange b.ie 0 8 value }
    else if a = 0x201 then some { b with ie := setBitRange b.ie 8 16 value }
    else if a = 0x202 then
      some { b with
        iff := setBitRange b.iff 0 16 ((bitRange b.iff 0 16 &&& (0xFFFF ^^^ value)) &&& 0x3FFF) }
    else if a = 0x203 then
      some { b with
        iff := setBitRange b.iff 0 16
          ((bitRange b.iff 0 16 &&& (0xFFFF ^^^ (value <<< 8))) &&& 0x3FFF) }
    else if a = 0x208 then some { b with ime := setBit b.ime 0 (value &&& 1 != 0) }
    else if a = 0x209 then some { b with ime := setBitRange b.ime 8 16 value }
    else if a = 0x20A then some { b with ime := setBitRange b.ime 16 24 value }
    else if a = 0x20B then some { b with ime := setBitRange b.ime 24 32 value }
    else if a = 0x301 then some { b with halt := value >>> 7 == 0 }
    else some b
  else if address >>> 24 = 0x05 then
    some { b with palette_ram := fupd b.palette_ram (address % 0x400) value }
  else if address >>> 24 = 0x06 then
    some { b with vram := fupd b.vram (address % 0x18000) value }
  else if address >>> 24 = 0x07 then
    some { b with oam := fupd b.oam (address % 0x400) value }
  else if 0x0E ≤ address >>> 24 ∧ address >>> 24 ≤ 0x0F then
    some { b with
      game_pak := { b.game_pak with sram := fupd b.game_pak.sram (address % 0x10000) value } }
  else some b

/-- Model of the default `Mcu::read16` (mmu/mod.rs:61-63):
`u16::from_le_bytes([read8(a), read8(a + 1)])`. -/
def Bus.read16 (b : Bus) (address : Nat) : Nat :=
  b.read8 address + b.read8 (address + 1) * 256

/-- Model of the default `Mcu::write16` (mmu/mod.rs:64-69): write the two
little-endian bytes of `value`. -/
def Bus.write16 (b : Bus) (address value : Nat) : Option Bus := do
  let b1 ← b.write8 address (value % 256)
  b1.write8 (address + 1) (value / 256 % 256)

/-- `Bus::default()` (bus.rs:52-77) with the BIOS bytes (an external binary)
and the cartridge left as parameters: zeroed memories and registers,
KEYINPUT `0x03FF`, no HALT. -/
def defaultBus (bios : Nat → Nat) (gp : GamePak) : Bus :=
  { bios := bios, ppu := ppu0, key_input := 0x3FF, ime := 0, ie := 0, iff := 0,
    timers := List.replicate 4 default, dma_channels := ⟨List.replicate 4 default⟩,
    wram := fun _ => 0, palette_ram := fun _ => 0, vram := fun _ => 0,
    oam := fun _ => 0, game_pak := gp, halt := false,
    dma_in_progress := List.replicate 4 false, cpu_r := List.replicate 16 0,
    state := false }

/-- The bus constructed by `Arm7TDMI::new` (arm7tdmi.rs:145-159): the ROM
image is copied into the front of a zero-filled 32 MiB buffer
(`box_arr![0; 0x0200_0000]`; `copy_from_slice` panics — `none` — if the
image is larger), and SRAM is 64 KiB of zeroes. -/
def newBus (bios : Nat → Nat) (rom : List Nat) : Option Bus :=
  if rom.length ≤ 0x2000000 then
    some (defaultBus bios
      { rom := fun i => if i < rom.length then rom.getD i 0 else 0, sram := fun _ => 0 })
  else none

/-- A concrete sample bus (zero BIOS, zero cartridge). -/
def bus0 : Bus := defaultBus (fun _ => 0) { rom := fun _ => 0, sram := fun _ => 0 }

/-- Little-endian byte reconstruction of a 16-bit value. -/
theorem le_bytes_reconstruct (x : Nat) (h : x < 0x10000) :
    bitRange x 0 8 + bitRange x 8 16 * 256 = x := by
  simp only [bitRange, Nat.shiftRight_eq_div_pow, Nat.and_pow_two_sub_one_eq_mod]
  norm_num
  omega

/-- Claim C3: an 8-bit write of the byte `v` to IF (`0x04000202` or
`0x04000203`) followed by a 16-bit read of IF yields the prior IF value with
exactly the bits of `v` (shifted to its byte lane) cleared.  The hypothesis
`b.iff < 0x4000` states that the 14 defined interrupt-source flags are the
only bits set, which holds in every reachable state: all IF updates either
set flag bits 0..13 or mask with `0x3FFF`. -/
theorem c3_if_write_one_to_clear (b : Bus) (v : Nat) (hv : v < 256) (hf : b.iff < 0x4000) :
    (Bus.write8 b 0x04000202 v).map (fun b1 => Bus.read16 b1 0x04000202) =
      some (b.iff &&& (0xFFFF ^^^ v)) ∧
    (Bus.write8 b 0x04000203 v).map (fun b1 => Bus.read16 b1 0x04000202) =
      some (b.iff &&& (0xFFFF ^^^ (v <<< 8))) := by
  have h16 : b.iff < 2 ^ 16 := by omega
  have hbr : bitRange b.iff 0 16 = b.iff := by
    rw [bitRange_zero_lo, Nat.mod_eq_of_lt h16]
  have hand : ∀ m : Nat, (b.iff &&& m) &&& 0x3FFF = b.iff &&& m := by
    intro m
    have hle : b.iff &&& m ≤ b.iff := Nat.and_le_left
    have hlt : (b.iff &&& m) < 2 ^ 14 := by omega
    calc (b.iff &&& m) &&& 0x3FFF = (b.iff &&& m) % 2 ^ 14 :=
          Nat.and_pow_two_sub_one_eq_mod _ 14
      _ = b.iff &&& m := Nat.mod_eq_of_lt hlt
  have hset : ∀ m : Nat, setBitRange b.iff 0 16 (b.iff &&& m) = b.iff &&& m := by
    intro m
    have hle : b.iff &&& m ≤ b.iff := Nat.and_le_left
    exact setBitRange_zero_lo _ _ _ h16 (by omega)
  have hlt2 : ∀ m : Nat, b.iff &&& m < 0x10000 := by
    intro m
    have := Nat.and_le_left (n := b.iff) (m := m)
    omega
  have e2 : (0x04000202 : Nat) >>> 24 = 4 := by decide
  have e3 : (0x04000203 : Nat) >>> 24 = 4 := by decide
  have hw2 : Bus.write8 b 0x04000202 v = some { b with iff := b.iff &&& (0xFFFF ^^^ v) } := by
    simp only [Bus.write8, e2]
    norm_num [hbr, hand, hset]
  have hw3 : Bus.write8 b 0x04000203 v =
      some { b with iff := b.iff &&& (0xFFFF ^^^ (v <<< 8)) } := by
    simp only [Bus.write8, e3]
    norm_num [hbr, hand, hset]
  have hrd : ∀ x : Nat, x < 0x10000 → Bus.read16 { b with iff := x } 0x04000202 = x := by
    intro x hx
    simp only [Bus.read16, Bus.read8, e2, e3]
    norm_num
    exact le_bytes_reconstruct x hx
  constructor
  · rw [hw2, Option.map_some']
    exact congrArg some (hrd _ (hlt2 _))
  · rw [hw3, Option.map_some']
    exact congrArg some (hrd _ (hlt2 _))

/-- A sample bus with IF flags 13 and 6 pending. -/
def busIF : Bus := { bus0 with iff := 0x2040 }

/-- Witness for C3: clearing IF bit 6 by writing `0x40` to `0x04000202`. -/
theorem c3_if_write_one_to_clear_witness :
    ((0x40 : Nat) < 256 ∧ busIF.iff < 0x4000) ∧
    ((Bus.write8 busIF 0x04000202 0x40).map (fun b1 => Bus.read16 b1 0x04000202) =
        some (busIF.iff &&& (0xFFFF ^^^ 0x40)) ∧
      (Bus.write8 busIF 0x04000203 0x40).map (fun b1 => Bus.read16 b1 0x04000202) =
        some (busIF.iff &&& (0xFFFF ^^^ (0x40 <<< 8)))) :=
  ⟨⟨by decide, by decide⟩, c3_if_write_one_to_clear busIF 0x40 (by decide) (by decide)⟩

/-- Claim C6 (code_bug evaluation): a 16-bit write of `0x0080` to DMA0CNT_H
(`0x040000BA`) reads back as `0x0000` — bit 7, the low bit of the source
address-control field, is lost because `apply_dma_cnt` extracts that field
with the mask `0x110` instead of `0x180`; writing `0x0180` reads back as
`0x0100` (bit 8 survives, bit 7 does not).  The claim requires `read16 == v`
on this register's defined bits, in particular bits 7-8. -/
theorem c6_dma_src_addr_ctrl_bit7_lost :
    (Bus.write16 bus0 0x040000BA 0x0080).map (fun b => Bus.read16 b 0x040000BA) =
      some 0x0000 ∧
    (Bus.write16 bus0 0x040000BA 0x0180).map (fun b => Bus.read16 b 0x040000BA) =
      some 0x0100 ∧
    (0x0000 : Nat) ≠ 0x0080 := by
  refine ⟨by rfl, by rfl, by decide⟩

/-- Claim C7 counterexample: with the one-byte ROM image `[0x11]`, the 8-bit
bus read at `0x08000001` (offset 1, past the image) returns `0x00`, not the
claimed `0xFF`; and the read at `0x09000000` returns `0x11` — the bus masks
the ROM offset to 24 bits, so offset 16 MiB mirrors back into the image
rather than reading fill. -/
theorem c7_counterexample_rom_pad_not_ff :
    (newBus (fun _ => 0) [0x11]).map (fun b => Bus.read8 b 0x08000001) = some 0x00 ∧
    (newBus (fun _ => 0) [0x11]).map (fun b => Bus.read8 b 0x09000000) = some 0x11 ∧
    (0x00 : Nat) ≠ 0xFF := by
  refine ⟨by rfl, by rfl, by decide⟩

/-- Claim C7 (amended): for a ROM image shorter than 32 MiB, every 8-bit bus
read from the cartridge ROM region (`0x08 ≤ address >> 24 ≤ 0x0D`) whose
24-bit masked offset (`address & 0xFFFFFF`, the index the bus uses) lies at
or past the image's length returns `0x00` — the buffer is zero-filled, not
`0xFF`-filled. -/
theorem c7_rom_oob_reads_zero (bios : Nat → Nat) (rom : List Nat) (b : Bus) (address : Nat)
    (hnew : newBus bios rom = some b)
    (h1 : 0x08 ≤ address >>> 24) (h2 : address >>> 24 ≤ 0x0D)
    (h3 : rom.length ≤ address &&& 0xFFFFFF) :
    Bus.read8 b address = 0x00 := by
  have hb0 : ¬(address >>> 24 = 0x00 ∧ address < 0x4000) := by omega
  have hb2 : address >>> 24 ≠ 0x02 := by omega
  have hb3 : address >>> 24 ≠ 0x03 := by omega
  have hb4 : address >>> 24 ≠ 0x04 := by omega
  have hb5 : address >>> 24 ≠ 0x05 := by omega
  have hb6 : address >>> 24 ≠ 0x06 := by omega
  have hb7 : address >>> 24 ≠ 0x07 := by omega
  unfold newBus at hnew
  split at hnew
  · injection hnew with hb
    subst hb
    simp only [Bus.read8]
    rw [if_neg hb0, if_neg hb2, if_neg hb3, if_neg hb4, if_neg hb5, if_neg hb6,
      if_neg hb7, if_pos ⟨h1, h2⟩]
    exact if_neg (Nat.not_lt.mpr h3)
  · exact absurd hnew (by simp)

/-- The bus built from the one-byte ROM image `[0x11]`. -/
def busRom11 : Bus :=
  defaultBus (fun _ => 0)
    { rom := fun i => if i < ([0x11] : List Nat).length then ([0x11] : List Nat).getD i 0 else 0,
      sram := fun _ => 0 }

/-- Witness for C7 at the one-byte image `[0x11]` and address `0x08000001`. -/
theorem c7_rom_oob_reads_zero_witness :
    (newBus (fun _ => 0) [0x11] = some busRom11 ∧
      0x08 ≤ (0x08000001 : Nat) >>> 24 ∧ (0x08000001 : Nat) >>> 24 ≤ 0x0D ∧
      ([0x11] : List Nat).length ≤ 0x08000001 &&& 0xFFFFFF) ∧
    Bus.read8 busRom11 0x08000001 = 0x00 :=
  ⟨⟨rfl, by decide, by decide, by decide⟩,
    c7_rom_oob_reads_zero (fun _ => 0) [0x11] busRom11 0x08000001 rfl (by decide)
      (by decide) (by decide)⟩

/-- Claim C9: in the `0x0E`/`0x0F` region, the 8-bit read at `0x0E000000` is
always `0x62` and at `0x0E000001` always `0x13` (the Flash ID stub),
regardless of the bus state — in particular of SRAM contents and prior
writes, which land in `sram` and never affect these two reads; every other
read in the region returns the SRAM byte at `address % 0x10000`. -/
theorem c9_sram_flash_id_stub (b : Bus) (address : Nat)
    (h : address >>> 24 = 0x0E ∨ address >>> 24 = 0x0F) :
    Bus.read8 b address =
      (if address = 0x0E000000 then 0x62
       else if address = 0x0E000001 then 0x13
       else b.game_pak.sram (address % 0x10000)) := by
  have hb0 : ¬(address >>> 24 = 0x00 ∧ address < 0x4000) := by omega
  have hb2 : address >>> 24 ≠ 0x02 := by omega
  have hb3 : address >>> 24 ≠ 0x03 := by omega
  have hb4 : address >>> 24 ≠ 0x04 := by omega
  have hb5 : address >>> 24 ≠ 0x05 := by omega
  have hb6 : address >>> 24 ≠ 0x06 := by omega
  have hb7 : address >>> 24 ≠ 0x07 := by omega
  have hrom : ¬(0x08 ≤ address >>> 24 ∧ address >>> 24 ≤ 0x0D) := by omega
  have hsr : 0x0E ≤ address >>> 24 ∧ address >>> 24 ≤ 0x0F := by omega
  simp only [Bus.read8]
  rw [if_neg hb0, if_neg hb2, if_neg hb3, if_neg hb4, if_neg hb5, if_neg hb6,
    if_neg hb7, if_neg hrom, if_pos hsr]

/-- Witness for C9 at `0x0E000000`. -/
theorem c9_sram_flash_id_stub_witness :
    ((0x0E000000 : Nat) >>> 24 = 0x0E ∨ (0x0E000000 : Nat) >>> 24 = 0x0F) ∧
    Bus.read8 bus0 0x0E000000 =
      (if (0x0E000000 : Nat) = 0x0E000000 then 0x62
       else if (0x0E000000 : Nat) = 0x0E000001 then 0x13
       else bus0.game_pak.sram (0x0E000000 % 0x10000)) :=
  ⟨Or.inl (by decide), c9_sram_flash_id_stub bus0 0x0E000000 (Or.inl (by decide))⟩

/-- Claim C10: an 8-bit write to the BIOS region (`address >> 24 = 0x00`) or
the cartridge ROM region (`address >> 24` in `0x08..=0x0D`) falls through to
the final `_ => {}` arm of `Bus::write8`: it never fails and leaves the
entire bus state unchanged. -/
theorem c10_rom_bios_writes_dropped (b : Bus) (address value : Nat)
    (h : address >>> 24 = 0x00 ∨ (0x08 ≤ address >>> 24 ∧ address >>> 24 ≤ 0x0D)) :
    Bus.write8 b address value = some b := by
  have hb2 : address >>> 24 ≠ 0x02 := by omega
  have hb3 : address >>> 24 ≠ 0x03 := by omega
  have hb4 : address >>> 24 ≠ 0x04 := by omega
  have hb5 : address >>> 24 ≠ 0x05 := by omega
  have hb6 : address >>> 24 ≠ 0x06 := by omega
  have hb7 : address >>> 24 ≠ 0x07 := by omega
  have hsr : ¬(0x0E ≤ address >>> 24 ∧ address >>> 24 ≤ 0x0F) := by omega
  simp only [Bus.write8]
  rw [if_neg hb2, if_neg hb3, if_neg hb4, if_neg hb5, if_neg hb6, if_neg hb7,
    if_neg hsr]

/-- Witness for C10: a write to the start of the ROM region. -/
theorem c10_rom_bios_writes_dropped_witness :
    ((0x08000000 : Nat) >>> 24 = 0x00 ∨
      (0x08 ≤ (0x08000000 : Nat) >>> 24 ∧ (0x08000000 : Nat) >>> 24 ≤ 0x0D)) ∧
    Bus.write8 bus0 0x08000000 0x12 = some bus0 :=
  ⟨Or.inr ⟨by decide, by decide⟩,
    c10_rom_bios_writes_dropped bus0 0x08000000 0x12 (Or.inr ⟨by decide, by decide⟩)⟩
